import Mathlib

/-!
# Shallow embedding of the nextjs-typed-api runtime

Embeds the two runtime components of the repository:

* the request adapter `createApiHandler` (`src/lib/api-builder.ts`), which
  looks up a handler by HTTP method, builds the request input from the query
  string or JSON body merged with the route path parameters, optionally runs a
  zod validator, and maps results and thrown errors to HTTP responses;
* the client helpers: `buildRoute` (`src/src/route-helpers.ts`) and the
  `useMutation` machinery (`mutationFn` and `trigger` in the typed client),
  which substitute bracketed path parameters into route templates with
  JavaScript's first-occurrence `String.replace` (including ECMAScript's
  dollar-pattern substitution in the replacement value), build the outgoing
  HTTP request, and drive the SWR cache (optimistic write, prefix
  revalidation, rollback refetch).

JavaScript strings are modelled as `List Char`; JavaScript objects as
association lists where the first binding of a key is its value, so the
spread `{...a, ...b}` (later spread wins) is `b ++ a`.  The SWR `mutate`
calls issued by `trigger` are recorded as a list of `CacheOp`s; the network
call itself is abstracted by its outcome.
-/

/-- JavaScript strings, as their sequence of characters. -/
abbrev Str := List Char

/-- Write a Lean string literal as a `Str`. -/
def strToL (s : String) : Str := s.toList

/-- JavaScript `s.startsWith(pat)`: `pat` is a leading run of `s`. -/
def strStartsWith : Str → Str → Bool
  | _, [] => true
  | [], _ :: _ => false
  | c :: s, p :: ps => c == p && strStartsWith s ps

/-- JavaScript `s.includes(pat)`: `pat` occurs contiguously in `s`. -/
def containsStr : Str → Str → Bool
  | [], pat => strStartsWith [] pat
  | c :: t, pat => strStartsWith (c :: t) pat || containsStr t pat

/-- ECMAScript GetSubstitution for a string replacement value.  With a string
search pattern there are no capture groups and no named captures, so the
active dollar patterns are exactly: a doubled dollar (a literal dollar),
dollar-ampersand (the matched substring), dollar-backtick (the portion of the
string before the match) and dollar-apostrophe (the portion after it); a
dollar in any other context stands for itself (which also covers the
digit and named-group forms, left literal when there are no captures).  In
the fall-through case the second character is provably not a dollar, so
emitting both characters and continuing is the same scan ECMAScript does. -/
def getSubstitution (matched before after : Str) : Str → Str
  | [] => []
  | [c] => [c]
  | c :: d :: rest =>
    if c = '$' then
      if d = '$' then '$' :: getSubstitution matched before after rest
      else if d = '&' then matched ++ getSubstitution matched before after rest
      else if d = Char.ofNat 96 then before ++ getSubstitution matched before after rest
      else if d = Char.ofNat 39 then after ++ getSubstitution matched before after rest
      else '$' :: d :: getSubstitution matched before after rest
    else c :: getSubstitution matched before after (d :: rest)

/-- Split `s` around the first occurrence of `pat`: `some (before, after)`
with `s = before ++ pat ++ after` and the occurrence leftmost, or `none` when
`pat` does not occur. -/
def findFirst : Str → Str → Option (Str × Str)
  | [], pat => if pat.isEmpty then some ([], []) else none
  | c :: s, pat =>
    if strStartsWith (c :: s) pat then some ([], (c :: s).drop pat.length)
    else match findFirst s pat with
      | none => none
      | some (b, a) => some (c :: b, a)

/-- JavaScript `s.replace(pat, rep)` with string arguments: replace the FIRST
occurrence of `pat` by the GetSubstitution expansion of `rep` (the matched
substring being `pat` itself); return `s` unchanged when `pat` does not
occur. -/
def replaceFirst (s pat rep : Str) : Str :=
  match findFirst s pat with
  | none => s
  | some (before, after) => before ++ getSubstitution pat before after rep ++ after

/-- The bracketed placeholder written `[key]` in a route template. -/
def bracketS (k : String) : Str := '[' :: (k.toList ++ [']'])

/-- JavaScript values, as far as the client-side claims need them: enough to
decide truthiness and to render `String(value)`.  Numbers are modelled as
integers (the claims only involve integral examples such as `0`); objects are
opaque tokens (always truthy). -/
inductive JsVal where
  | vundefined
  | vnull
  | vbool (b : Bool)
  | vnum (n : Int)
  | vstr (s : Str)
  | vobj (id : Nat)
deriving DecidableEq

/-- JavaScript truthiness of a value. -/
def truthy : JsVal → Bool
  | .vundefined => false
  | .vnull => false
  | .vbool b => b
  | .vnum n => n != 0
  | .vstr s => !s.isEmpty
  | .vobj _ => true

/-- JavaScript `String(value)`. -/
def jsToString : JsVal → Str
  | .vundefined => strToL "undefined"
  | .vnull => strToL "null"
  | .vbool true => strToL "true"
  | .vbool false => strToL "false"
  | .vnum n => (toString n).toList
  | .vstr s => s
  | .vobj _ => strToL "[object Object]"

/-! ## Server side: the request adapter (`createApiHandler`) -/

/-- One zod validation issue, as serialized into the 400 response `details`:
a path into the input and a message.  (zod paths may also hold numeric array
indices; the routes of this repository only produce field names.) -/
structure Issue where
  path : List String
  message : String
deriving DecidableEq

/-- A thrown/rejected JavaScript value as the adapter's catch block sees it:
either an `Error` instance exposing a `message`, or anything else. -/
inductive JsError where
  | errorWithMessage (message : String)
  | other
deriving DecidableEq

/-- The message the adapter serializes for a caught value:
`error instanceof Error ? error.message : "Internal server error"`. -/
def errorMessage : JsError → String
  | .errorWithMessage m => m
  | .other => "Internal server error"

/-- The JSON body of an adapter response: a 200 result, an `{error}` object,
or the 400 `{error, details}` object. -/
inductive ApiBody (R : Type) where
  | json (r : R)
  | errObj (error : String)
  | errDetails (error : String) (details : List Issue)
deriving DecidableEq

/-- An HTTP response produced by the adapter. -/
structure ApiResponse (R : Type) where
  status : Nat
  body : ApiBody R
deriving DecidableEq

/-- Lookup in a JavaScript object modelled as an association list (first
binding of a key wins). -/
def lookupObj : List (String × α) → String → Option α
  | [], _ => none
  | (k', v) :: t, k => if k' = k then some v else lookupObj t k

/-- The object spread `{...a, ...b}`: `b`'s bindings shadow `a`'s.  With
first-binding-wins lookup that is `b ++ a`. -/
def mergeObj (a b : List (String × α)) : List (String × α) := b ++ a

/-- A registered handler: a plain function, or a `withSchema` pair of a zod
schema (its `safeParse`, returning issues or a validated value of type `D`)
and the underlying function.  Handlers may throw (`Except JsError`); an async
handler's rejection is the same as a throw once awaited. -/
inductive Handler (V D R : Type) where
  | regular (fn : List (String × V) → Except JsError R)
  | withSchema (safeParse : List (String × V) → Except (List Issue) D)
      (handler : D → Except JsError R)

/-- An inbound request as the adapter consumes it: the method, the query
string already parsed to an object (`Object.fromEntries(url.searchParams)`),
the JSON body parse outcome (`none` when `req.json()` rejected), and the
route path parameters (`context?.params`, `[]` when absent). -/
structure ApiRequest (V : Type) where
  method : String
  queryParams : List (String × V)
  body : Option (List (String × V))
  pathParams : List (String × V)

/-- The raw input the adapter builds: for GET/DELETE the query parameters,
otherwise the parsed body (defaulting to `{}` on parse failure), in both
cases spread together with the path parameters, which shadow. -/
def mergedInput (method : String) (queryParams : List (String × V))
    (body : Option (List (String × V))) (pathParams : List (String × V)) :
    List (String × V) :=
  if method = "GET" ∨ method = "DELETE" then mergeObj queryParams pathParams
  else mergeObj (body.getD []) pathParams

/-- Turn an awaited handler result into a response: 200 with the value, or
500 with the extracted message when the handler threw. -/
def respondResult : Except JsError R → ApiResponse R
  | .ok r => ⟨200, .json r⟩
  | .error e => ⟨500, .errObj (errorMessage e)⟩

/-- Dispatch the built input to a handler definition: a schema handler first
runs `safeParse` (400 with the issues on failure, else the underlying
function gets the validated value); a plain handler gets the input directly. -/
def runHandler (hd : Handler V D R) (input : List (String × V)) : ApiResponse R :=
  match hd with
  | .withSchema sp fn =>
    match sp input with
    | .error issues => ⟨400, .errDetails "Validation failed" issues⟩
    | .ok d => respondResult (fn d)
  | .regular fn => respondResult (fn input)

/-- The per-request behaviour of the route object `createApiHandler` builds:
look up the method (405 when unregistered), build the merged input, dispatch. -/
def createApiHandler (handlers : List (String × Handler V D R))
    (req : ApiRequest V) : ApiResponse R :=
  match lookupObj handlers req.method with
  | none => ⟨405, .errObj ("Method " ++ req.method ++ " not allowed")⟩
  | some hd => runHandler hd (mergedInput req.method req.queryParams req.body req.pathParams)

/-- The handler registered as `hd` throws `e` on `input`: a plain handler
throws directly; a schema handler validates successfully and its underlying
function throws. -/
def handlerThrows (hd : Handler V D R) (input : List (String × V)) (e : JsError) : Prop :=
  match hd with
  | .regular fn => fn input = .error e
  | .withSchema sp fn => ∃ d, sp input = .ok d ∧ fn d = .error e

/-! ## Client side: `buildRoute`, `mutationFn`, `trigger` -/

/-- The route builder of `route-helpers.ts`: fold over the mapping's entries
in order, replacing (the first occurrence of) each key's bracketed
placeholder with the value. -/
def buildRoute (path : Str) (params : List (String × Str)) : Str :=
  params.foldl (fun route kv => replaceFirst route (bracketS kv.1) kv.2) path

/-- The outgoing HTTP request `mutationFn` hands to `fetcher`.  The body is
the object passed to `JSON.stringify` (`none` when no body is attached). -/
structure HttpRequest where
  url : Str
  method : Str
  body : Option (List (String × JsVal))
deriving DecidableEq

/-- The request construction inside `useMutation`'s `mutationFn`: walk the
input entries in order; a key whose bracketed placeholder occurs in the
current route is substituted (via `String(value)`), every other entry goes to
`bodyData`; the body is attached only when `bodyData` is non-empty and the
method is not DELETE. -/
def buildMutationRequest (route : Str) (method : Str)
    (input : Option (List (String × JsVal))) : HttpRequest :=
  let fr := (input.getD []).foldl
    (fun acc kv =>
      if containsStr acc.1 (bracketS kv.1) then
        (replaceFirst acc.1 (bracketS kv.1) (jsToString kv.2), acc.2)
      else (acc.1, acc.2 ++ [kv]))
    (route, ([] : List (String × JsVal)))
  { url := fr.1
    method := method
    body := if fr.2 ≠ [] ∧ method ≠ strToL "DELETE" then some fr.2 else none }

/-- The route-substitution loop `trigger` re-runs for cache invalidation:
same walk as `mutationFn`, keeping only the route. -/
def resolveRoute (route : Str) (input : List (String × JsVal)) : Str :=
  input.foldl
    (fun r kv =>
      if containsStr r (bracketS kv.1) then
        replaceFirst r (bracketS kv.1) (jsToString kv.2)
      else r)
    route

/-- One SWR `mutate` call issued by `trigger`, in order:
`setKey k v false` is `mutate(k, v, false)` (write without revalidation);
`revalidateStartingWith base` is the predicate call
`mutate(key => key.startsWith(base), undefined, revalidate true)`;
`refetchKey k` is the bare `mutate(k)` (drop cached value, refetch). -/
inductive CacheOp where
  | setKey (key : Str) (value : JsVal) (revalidate : Bool)
  | revalidateStartingWith (base : Str)
  | refetchKey (key : Str)
deriving DecidableEq

/-- The options object of `trigger`.  `optimisticData` is `vundefined` when
absent (the source tests its truthiness); the two flags are tested against
the literal `false` (`≠ some false` is the source's `!== false`). -/
structure TriggerOptions where
  optimisticData : JsVal
  rollbackOnError : Option Bool
  revalidate : Option Bool

/-- Calling `trigger` with no options object. -/
def defaultOptions : TriggerOptions := ⟨.vundefined, none, none⟩

/-- The settled outcome of the network call `mutationFn` makes: the parsed
response, or the rejection value, which `trigger` rethrows. -/
inductive NetOutcome where
  | success (result : JsVal)
  | failure (err : JsVal)
deriving DecidableEq

/-- The observable behaviour of `useMutation`'s `trigger`: the ordered list
of cache operations it issues, and what it returns or rethrows.  Before the
network call: an optimistic write to the raw template key when
`optimisticData` is truthy.  On success: when `revalidate` is not literally
`false`, revalidate every string key starting with the resolved route.  On
failure: when `rollbackOnError` is not literally `false` and optimistic data
was (truthily) supplied, refetch the raw template key; then rethrow. -/
def trigger (route : Str) (input : Option (List (String × JsVal)))
    (opts : TriggerOptions) (net : NetOutcome) : List CacheOp × NetOutcome :=
  let optimisticOps :=
    if truthy opts.optimisticData then [CacheOp.setKey route opts.optimisticData false]
    else []
  match net with
  | .success result =>
    let revOps :=
      if opts.revalidate ≠ some false then
        [CacheOp.revalidateStartingWith (resolveRoute route (input.getD []))]
      else []
    (optimisticOps ++ revOps, .success result)
  | .failure err =>
    let rollbackOps :=
      if opts.rollbackOnError ≠ some false ∧ truthy opts.optimisticData then
        [CacheOp.refetchKey route]
      else []
    (optimisticOps ++ rollbackOps, .failure err)

/-- Whether one cache operation marks the entry at `key` stale and refetches
it: the predicate revalidation does so for every string key starting with its
base; a bare `mutate(k)` does so for `k`; a `mutate(k, v, false)` write
revalidates nothing. -/
def opInvalidates : CacheOp → Str → Bool
  | .setKey _ _ _, _ => false
  | .revalidateStartingWith base, key => strStartsWith key base
  | .refetchKey k, key => k == key

/-- Whether a trigger run invalidated (marked stale and refetched) the cache
entry at `key`. -/
def cacheInvalidated (ops : List CacheOp) (key : Str) : Bool :=
  ops.any (fun op => opInvalidates op key)

/-! ## Helper lemmas -/

theorem lookupObj_append_some {a : List (String × α)} {k : String} {v : α}
    (h : lookupObj a k = some v) (b : List (String × α)) :
    lookupObj (a ++ b) k = some v := by
  induction a with
  | nil => simp [lookupObj] at h
  | cons hd t ih =>
    obtain ⟨k', v'⟩ := hd
    by_cases hk : k' = k <;> simp_all [lookupObj]

theorem lookupObj_append_none {a : List (String × α)} {k : String}
    (h : lookupObj a k = none) (b : List (String × α)) :
    lookupObj (a ++ b) k = lookupObj b k := by
  induction a with
  | nil => simp [lookupObj]
  | cons hd t ih =>
    obtain ⟨k', v'⟩ := hd
    by_cases hk : k' = k <;> simp_all [lookupObj]

/-! ## Claims about the request adapter -/

/-- C1: for every request dispatched to a handler, the input handed to the
handler machinery is the merge of the query string (GET/DELETE) or parsed
JSON body (other methods) with the route path parameters, and on any key
present in both, the path parameter's value is the one the handler sees. -/
theorem C1_merged_input_path_params_win
    (handlers : List (String × Handler V D R)) (req : ApiRequest V) (hd : Handler V D R)
    (hlook : lookupObj handlers req.method = some hd) :
    createApiHandler handlers req
        = runHandler hd (mergedInput req.method req.queryParams req.body req.pathParams)
    ∧ (∀ k v, lookupObj req.pathParams k = some v →
        lookupObj (mergedInput req.method req.queryParams req.body req.pathParams) k = some v)
    ∧ (∀ k, lookupObj req.pathParams k = none →
        lookupObj (mergedInput req.method req.queryParams req.body req.pathParams) k
          = if req.method = "GET" ∨ req.method = "DELETE"
            then lookupObj req.queryParams k
            else lookupObj (req.body.getD []) k) := by
  refine ⟨by simp [createApiHandler, hlook], ?_, ?_⟩
  · intro k v hk
    by_cases hm : req.method = "GET" ∨ req.method = "DELETE" <;>
      simp [mergedInput, mergeObj, hm, lookupObj_append_some hk]
  · intro k hk
    by_cases hm : req.method = "GET" ∨ req.method = "DELETE" <;>
      simp [mergedInput, mergeObj, hm, lookupObj_append_none hk]

theorem C1_witness :
    lookupObj [("GET", (Handler.regular fun i => Except.ok i
        : Handler String String (List (String × String))))] "GET"
      = some (Handler.regular fun i => Except.ok i)
    ∧ lookupObj (mergedInput "GET" [("id", "a")] none [("id", "b")]) "id" = some "b" :=
  ⟨rfl,
    (C1_merged_input_path_params_win
      [("GET", (Handler.regular fun i => Except.ok i
        : Handler String String (List (String × String))))]
      ⟨"GET", [("id", "a")], none, [("id", "b")]⟩ _ rfl).2.1 "id" "b" rfl⟩

/-- C2 (amended): for every non-GET/non-DELETE request whose body fails to
parse as JSON, the parse failure itself produces no error response — the
handler machinery is invoked with an input equal to exactly the route's path
parameters (the empty mapping if there are none), and when a plain handler
returns normally on that input the response is the normal 200 path. -/
theorem C2_parse_failure_input_is_path_params
    (handlers : List (String × Handler V D R)) (req : ApiRequest V) (hd : Handler V D R)
    (hm : ¬(req.method = "GET" ∨ req.method = "DELETE")) (hb : req.body = none)
    (hlook : lookupObj handlers req.method = some hd) :
    createApiHandler handlers req = runHandler hd req.pathParams
    ∧ (∀ fn r, hd = Handler.regular fn → fn req.pathParams = Except.ok r →
        createApiHandler handlers req = ⟨200, ApiBody.json r⟩) := by
  have hin : mergedInput req.method req.queryParams req.body req.pathParams
      = req.pathParams := by
    simp [mergedInput, hm, hb, mergeObj]
  constructor
  · simp [createApiHandler, hlook, hin]
  · intro fn r hfn hr
    simp [createApiHandler, hlook, hin, hfn, runHandler, respondResult, hr]

/-- C2, counterexample to the claim as stated: a POST whose body fails to
parse (`body = none`) does reach the handler with just the path parameters,
but when that handler throws the adapter responds 500, not the claimed
error-free 200 path. -/
theorem C2_counterexample :
    createApiHandler
        [("POST", (Handler.regular fun _ => Except.error (JsError.errorWithMessage "boom")
          : Handler String String String))]
        ⟨"POST", [], none, []⟩
      = ⟨500, ApiBody.errObj "boom"⟩
    ∧ (createApiHandler
        [("POST", (Handler.regular fun _ => Except.error (JsError.errorWithMessage "boom")
          : Handler String String String))]
        ⟨"POST", [], none, []⟩).status ≠ 200 :=
  ⟨rfl, by decide⟩

theorem C2_witness :
    createApiHandler
        [("POST", (Handler.regular fun _ => Except.ok "done" : Handler String String String))]
        ⟨"POST", [], none, [("id", "7")]⟩
      = ⟨200, ApiBody.json "done"⟩ :=
  (C2_parse_failure_input_is_path_params
    [("POST", (Handler.regular fun _ => Except.ok "done" : Handler String String String))]
    ⟨"POST", [], none, [("id", "7")]⟩ _ (by decide) rfl rfl).2 _ "done" rfl rfl

/-- C3: whenever the dispatched handler throws (or its awaited promise
rejects), the adapter responds 500 with `{error: m}`, `m` being the thrown
`Error`'s message, or "Internal server error" for a non-`Error` value; in
particular a handler throwing an `Error` with message "boom" yields
`{error: "boom"}`.  (`createApiHandler` is a total function into responses,
so no exception escapes the adapter.) -/
theorem C3_handler_throw_yields_500
    (handlers : List (String × Handler V D R)) (req : ApiRequest V) (hd : Handler V D R)
    (e : JsError)
    (hlook : lookupObj handlers req.method = some hd)
    (hthrow : handlerThrows hd
      (mergedInput req.method req.queryParams req.body req.pathParams) e) :
    createApiHandler handlers req = ⟨500, ApiBody.errObj (errorMessage e)⟩
    ∧ (e = JsError.errorWithMessage "boom" →
        createApiHandler handlers req = ⟨500, ApiBody.errObj "boom"⟩) := by
  have h1 : createApiHandler handlers req = ⟨500, ApiBody.errObj (errorMessage e)⟩ := by
    cases hd with
    | regular fn =>
      simp only [handlerThrows] at hthrow
      simp [createApiHandler, hlook, runHandler, hthrow, respondResult]
    | withSchema sp fn =>
      obtain ⟨d, hsp, hfn⟩ := hthrow
      simp [createApiHandler, hlook, runHandler, hsp, hfn, respondResult]
  exact ⟨h1, fun he => by rw [h1, he]; rfl⟩

theorem C3_witness :
    createApiHandler
        [("GET", (Handler.regular fun _ => Except.error (JsError.errorWithMessage "boom")
          : Handler String String String))]
        ⟨"GET", [], none, []⟩
      = ⟨500, ApiBody.errObj "boom"⟩ :=
  (C3_handler_throw_yields_500
    [("GET", (Handler.regular fun _ => Except.error (JsError.errorWithMessage "boom")
      : Handler String String String))]
    ⟨"GET", [], none, []⟩ _ (JsError.errorWithMessage "boom") rfl rfl).2 rfl

/-- C4: for a request dispatched to a schema handler, a failed validation of
the merged input yields 400 with `{error: "Validation failed", details}` (for
every underlying function, i.e. without invoking it), and a successful
validation calls the underlying function with the validated value rather than
the raw merged input. -/
theorem C4_validation_gate
    (handlers : List (String × Handler V D R)) (req : ApiRequest V)
    (sp : List (String × V) → Except (List Issue) D) (fn : D → Except JsError R)
    (hlook : lookupObj handlers req.method = some (Handler.withSchema sp fn)) :
    (∀ issues, sp (mergedInput req.method req.queryParams req.body req.pathParams)
        = Except.error issues →
      createApiHandler handlers req = ⟨400, ApiBody.errDetails "Validation failed" issues⟩)
    ∧ (∀ d, sp (mergedInput req.method req.queryParams req.body req.pathParams)
        = Except.ok d →
      createApiHandler handlers req = respondResult (fn d)) := by
  constructor
  · intro issues hsp
    simp [createApiHandler, hlook, runHandler, hsp]
  · intro d hsp
    simp [createApiHandler, hlook, runHandler, hsp]

theorem C4_witness :
    createApiHandler
        [("POST", Handler.withSchema
            (fun i => match lookupObj i "name" with
              | none => Except.error [⟨["name"], "Required"⟩]
              | some v => Except.ok v)
            (fun d => (Except.ok (d ++ "!") : Except JsError String)))]
        ⟨"POST", [], some [], []⟩
      = ⟨400, ApiBody.errDetails "Validation failed" [⟨["name"], "Required"⟩]⟩ :=
  (C4_validation_gate
    [("POST", Handler.withSchema
        (fun i => match lookupObj i "name" with
          | none => Except.error [⟨["name"], "Required"⟩]
          | some v => Except.ok v)
        (fun d => (Except.ok (d ++ "!") : Except JsError String)))]
    ⟨"POST", [], some [], []⟩ _ _ rfl).1 _ rfl

/-- C5: a request whose method has no registered handler is answered 405 with
`{error: "Method <M> not allowed"}`, whatever its query, body and path
parameters. -/
theorem C5_method_not_allowed
    (handlers : List (String × Handler V D R)) (req : ApiRequest V)
    (hlook : lookupObj handlers req.method = none) :
    createApiHandler handlers req
      = ⟨405, ApiBody.errObj ("Method " ++ req.method ++ " not allowed")⟩ := by
  simp [createApiHandler, hlook]

theorem C5_witness :
    createApiHandler
        [("GET", (Handler.regular fun _ => Except.ok "ok" : Handler String String String))]
        ⟨"PATCH", [("x", "1")], none, [("id", "9")]⟩
      = ⟨405, ApiBody.errObj ("Method " ++ "PATCH" ++ " not allowed")⟩ :=
  C5_method_not_allowed
    [("GET", (Handler.regular fun _ => Except.ok "ok" : Handler String String String))]
    ⟨"PATCH", [("x", "1")], none, [("id", "9")]⟩ rfl

/-! ## Claims about the client mutation helper -/

/-- C6: a successful trigger whose `revalidate` option is not literally
`false` returns the network result and invalidates exactly the cache entries
whose key starts with the concrete route obtained by substituting the input's
path parameters into the template. -/
theorem C6_success_revalidates_resolved_route
    (route : Str) (input : Option (List (String × JsVal))) (opts : TriggerOptions)
    (result : JsVal)
    (hrev : opts.revalidate ≠ some false) :
    (trigger route input opts (NetOutcome.success result)).2 = NetOutcome.success result
    ∧ ∀ key, cacheInvalidated (trigger route input opts (NetOutcome.success result)).1 key
        = strStartsWith key (resolveRoute route (input.getD [])) := by
  constructor
  · simp [trigger]
  · intro key
    by_cases hopt : truthy opts.optimisticData <;>
      simp [trigger, hrev, hopt, cacheInvalidated, opInvalidates]

theorem C6_witness :
    defaultOptions.revalidate ≠ some false
    ∧ cacheInvalidated
        (trigger (strToL "/api/users/[id]") (some [("id", JsVal.vstr (strToL "42"))])
          defaultOptions (NetOutcome.success JsVal.vnull)).1
        (strToL "/api/users/42?limit=1") = true :=
  ⟨by decide,
    ((C6_success_revalidates_resolved_route (strToL "/api/users/[id]")
        (some [("id", JsVal.vstr (strToL "42"))]) defaultOptions JsVal.vnull
        (by decide)).2 (strToL "/api/users/42?limit=1")).trans (by decide)⟩

/-- C7: a trigger with truthy optimistic data whose network call rejects,
with `rollbackOnError` not literally `false`, first writes the optimistic
value to the unresolved template key, then forces a refetch of that same key
to discard it, and rethrows the original error. -/
theorem C7_rollback_refetches_template_key
    (route : Str) (input : Option (List (String × JsVal))) (opts : TriggerOptions)
    (err : JsVal)
    (hopt : truthy opts.optimisticData = true) (hrb : opts.rollbackOnError ≠ some false) :
    trigger route input opts (NetOutcome.failure err)
      = ([CacheOp.setKey route opts.optimisticData false, CacheOp.refetchKey route],
          NetOutcome.failure err) := by
  simp [trigger, hopt, hrb]

theorem C7_witness :
    truthy (JsVal.vstr (strToL "tmp")) = true
    ∧ trigger (strToL "/api/users/[id]") (some [("id", JsVal.vstr (strToL "42"))])
        ⟨JsVal.vstr (strToL "tmp"), none, none⟩
        (NetOutcome.failure (JsVal.vstr (strToL "boom")))
      = ([CacheOp.setKey (strToL "/api/users/[id]") (JsVal.vstr (strToL "tmp")) false,
          CacheOp.refetchKey (strToL "/api/users/[id]")],
          NetOutcome.failure (JsVal.vstr (strToL "boom"))) :=
  ⟨by decide,
    C7_rollback_refetches_template_key (strToL "/api/users/[id]")
      (some [("id", JsVal.vstr (strToL "42"))])
      ⟨JsVal.vstr (strToL "tmp"), none, none⟩
      (JsVal.vstr (strToL "boom")) (by decide) (by decide)⟩

/-- C9: a mutation issued with method DELETE never carries a request body,
whatever the input mapping and however many non-path fields remain after path
substitution. -/
theorem C9_delete_sends_no_body
    (route : Str) (input : Option (List (String × JsVal))) :
    (buildMutationRequest route (strToL "DELETE") input).body = none := by
  simp [buildMutationRequest]

/-- C10: when the supplied `optimisticData` is falsy (for example `0`, the
empty string, or `false`), the trigger behaves as if none was supplied: it
issues no cache write before the network call and no rollback refetch on
failure — its only possible cache operation is the success-path
revalidation. -/
theorem C10_falsy_optimistic_data_is_ignored
    (route : Str) (input : Option (List (String × JsVal))) (opts : TriggerOptions)
    (net : NetOutcome)
    (hfalsy : truthy opts.optimisticData = false) :
    (∀ k v b, CacheOp.setKey k v b ∉ (trigger route input opts net).1)
    ∧ (∀ k, CacheOp.refetchKey k ∉ (trigger route input opts net).1) := by
  constructor
  · intro k v b
    cases net <;> simp [trigger, hfalsy]
  · intro k
    cases net <;> simp [trigger, hfalsy]

theorem C10_witness :
    truthy (JsVal.vnum 0) = false
    ∧ CacheOp.refetchKey (strToL "/api/users") ∉
        (trigger (strToL "/api/users") (some []) ⟨JsVal.vnum 0, none, none⟩
          (NetOutcome.failure JsVal.vnull)).1 :=
  ⟨by decide,
    (C10_falsy_optimistic_data_is_ignored (strToL "/api/users") (some [])
      ⟨JsVal.vnum 0, none, none⟩ (NetOutcome.failure JsVal.vnull)
      (by decide)).2 (strToL "/api/users")⟩

/-! ## Claims about `buildRoute` -/

theorem strStartsWith_mem {s pat : Str} (h : strStartsWith s pat = true) :
    ∀ c ∈ pat, c ∈ s := by
  induction pat generalizing s with
  | nil => intro c hc; simp at hc
  | cons p ps ih =>
    cases s with
    | nil => simp [strStartsWith] at h
    | cons a t =>
      simp only [strStartsWith, Bool.and_eq_true, beq_iff_eq] at h
      obtain ⟨hap, hrest⟩ := h
      intro c hc
      rcases List.mem_cons.mp hc with rfl | hc
      · exact hap ▸ List.mem_cons_self a t
      · exact List.mem_cons_of_mem a (ih hrest c hc)

theorem containsStr_mem {s pat : Str} (h : containsStr s pat = true) :
    ∀ c ∈ pat, c ∈ s := by
  induction s with
  | nil => exact strStartsWith_mem h
  | cons a t ih =>
    simp only [containsStr, Bool.or_eq_true] at h
    rcases h with h | h
    · exact strStartsWith_mem h
    · intro c hc
      exact List.mem_cons_of_mem a (ih h c hc)

theorem containsStr_eq_false_of_not_mem {s pat : Str} {c : Char}
    (hc : c ∈ pat) (hs : c ∉ s) : containsStr s pat = false := by
  cases h : containsStr s pat with
  | false => rfl
  | true => exact absurd (containsStr_mem h c hc) hs

theorem strStartsWith_append_self (pat s : Str) : strStartsWith (pat ++ s) pat = true := by
  induction pat with
  | nil => simp [strStartsWith]
  | cons p ps ih => simp [strStartsWith, ih]

theorem getSubstitution_no_dollar (m b a : Str) : ∀ {rep : Str}, '$' ∉ rep →
    getSubstitution m b a rep = rep
  | [], _ => rfl
  | [_], _ => rfl
  | c :: d :: rest, h => by
    have hc : c ≠ '$' := fun hcd => h (hcd ▸ List.mem_cons_self c (d :: rest))
    have ht : '$' ∉ d :: rest := fun hm => h (List.mem_cons_of_mem c hm)
    simp only [getSubstitution, if_neg hc]
    rw [getSubstitution_no_dollar m b a ht]

theorem findFirst_split (c0 : Char) (ps p s : Str) (hp : c0 ∉ p) :
    findFirst (p ++ (c0 :: ps) ++ s) (c0 :: ps) = some (p, s) := by
  revert hp
  induction p with
  | nil =>
    intro _
    rw [List.nil_append, show (c0 :: ps) ++ s = c0 :: (ps ++ s) from rfl]
    simp only [findFirst]
    rw [if_pos]
    · rw [show (c0 :: (ps ++ s)) = (c0 :: ps) ++ s from rfl]
      simp [List.drop_left]
    · rw [show (c0 :: (ps ++ s)) = (c0 :: ps) ++ s from rfl]
      exact strStartsWith_append_self (c0 :: ps) s
  | cons b t ih =>
    intro hp
    have hbt : c0 ≠ b ∧ c0 ∉ t :=
      ⟨fun h => hp (h ▸ List.mem_cons_self b t), fun h => hp (List.mem_cons_of_mem b h)⟩
    have hfalse : strStartsWith (b :: (t ++ (c0 :: ps) ++ s)) (c0 :: ps) = false := by
      simp [strStartsWith, Ne.symm hbt.1]
    rw [show (b :: t) ++ (c0 :: ps) ++ s = b :: (t ++ (c0 :: ps) ++ s) from rfl]
    simp only [findFirst, hfalse, Bool.false_eq_true, if_false]
    rw [ih hbt.2]

theorem replaceFirst_before (c0 : Char) (ps p s rep : Str) (hp : c0 ∉ p)
    (hr : '$' ∉ rep) :
    replaceFirst (p ++ (c0 :: ps) ++ s) (c0 :: ps) rep = p ++ rep ++ s := by
  simp only [replaceFirst, findFirst_split c0 ps p s hp]
  rw [getSubstitution_no_dollar _ _ _ hr]

/-- C8 (amended): `buildRoute` substitutes, for each mapping entry in order,
the FIRST occurrence of that key's bracketed placeholder, the replacement
value undergoing JavaScript's dollar substitution; in particular
`buildRoute "/api/users/[id]" {id: "42"}` is `"/api/users/42"`; and for a
template whose only left bracket is the one opening the key's single
placeholder, with a value containing neither a left bracket nor a dollar,
the result is exactly the template with the placeholder replaced and no
occurrence of that placeholder remains. -/
theorem C8_buildRoute_substitution (p v s : Str) (k : String)
    (hp : '[' ∉ p) (hv : '[' ∉ v) (hs : '[' ∉ s) (hv2 : '$' ∉ v) :
    buildRoute (strToL "/api/users/[id]") [("id", strToL "42")] = strToL "/api/users/42"
    ∧ buildRoute (p ++ bracketS k ++ s) [(k, v)] = p ++ v ++ s
    ∧ containsStr (buildRoute (p ++ bracketS k ++ s) [(k, v)]) (bracketS k) = false := by
  have h2 : buildRoute (p ++ bracketS k ++ s) [(k, v)] = p ++ v ++ s := by
    simp only [buildRoute, List.foldl_cons, List.foldl_nil, bracketS]
    exact replaceFirst_before '[' (k.toList ++ [']']) p s v hp hv2
  refine ⟨by decide, h2, ?_⟩
  rw [h2]
  apply containsStr_eq_false_of_not_mem (c := '[')
  · simp [bracketS]
  · simp [List.mem_append, hp, hv, hs]

/-- C8, counterexample to the claim as stated: the template `"/u/[a]/[a]"`
contains a placeholder for the mapping's only key `a`, yet
`buildRoute "/u/[a]/[a]" {a: "x"}` is `"/u/x/[a]"` — JavaScript's
`String.replace` with a string pattern replaces only the first occurrence,
so an occurrence of the placeholder remains. -/
theorem C8_counterexample :
    containsStr (strToL "/u/[a]/[a]") (bracketS "a") = true
    ∧ buildRoute (strToL "/u/[a]/[a]") [("a", strToL "x")] = strToL "/u/x/[a]"
    ∧ containsStr (buildRoute (strToL "/u/[a]/[a]") [("a", strToL "x")]) (bracketS "a")
        = true := by
  decide

theorem C8_witness :
    ('[' ∉ strToL "42") ∧ ('$' ∉ strToL "42")
    ∧ buildRoute (strToL "/api/users/" ++ bracketS "id" ++ []) [("id", strToL "42")]
      = strToL "/api/users/" ++ strToL "42" ++ [] :=
  ⟨by decide, by decide,
    (C8_buildRoute_substitution (strToL "/api/users/") (strToL "42") [] "id"
      (by decide) (by decide) (by decide) (by decide)).2.1⟩
